import Mathlib

/-!
Shallow embedding of the workflow classification and orchestration core of
Med-Search (src/medical_agent.py): the message data model, the LangGraph node
functions and the two graph topologies, the LLM workflow classifier with its
cache and fallbacks, and the MCP connection manager with its retry wrapper.

External effects (model invocations, tool-server handshakes, JSON parsing by
the standard library, Python `hash`) are abstracted as explicit oracle
parameters; everything the Python code computes itself is translated directly.
-/

namespace MedSearch

/-- A pending tool-call request carried by an assistant message
(name + arguments + call-id). -/
structure ToolCall where
  name : String
  args : String
  id : String
deriving DecidableEq, Repr

/-- LangChain message taxonomy as used by the agent:
SystemMessage, HumanMessage, AIMessage (with its `tool_calls` list) and
ToolMessage (with its `tool_call_id`). -/
inductive Message where
  | system (content : String)
  | human (content : String)
  | ai (content : String) (tool_calls : List ToolCall)
  | tool (content : String) (tool_call_id : String)
deriving DecidableEq, Repr

def isHuman : Message → Bool
  | Message.human _ => true
  | _ => false

def isToolMsg : Message → Bool
  | Message.tool _ _ => true
  | _ => false

def isSystemMsg : Message → Bool
  | Message.system _ => true
  | _ => false

/-- Python check `isinstance(m, AIMessage) and m.tool_calls` (list truthiness). -/
def isAIWithToolCalls : Message → Bool
  | Message.ai _ tool_calls => !tool_calls.isEmpty
  | _ => false

/-- Python check `isinstance(m, AIMessage) and not m.tool_calls`. -/
def isAINoToolCalls : Message → Bool
  | Message.ai _ tool_calls => tool_calls.isEmpty
  | _ => false

def msg_content : Message → String
  | Message.system c => c
  | Message.human c => c
  | Message.ai c _ => c
  | Message.tool c _ => c

/-- The `AgentState` messages channel reducer:
`messages: Annotated[List[BaseMessage], lambda x, y: x + y]` — updates are
concatenated onto the existing sequence. -/
def add_messages (x y : List Message) : List Message := x ++ y

/-- One entry of `st.session_state.history` (a dict with keys role/content;
role is one of "user", "assistant", "assistant_tool"). -/
structure HistMsg where
  role : String
  content : String
deriving DecidableEq, Repr

/-- Python `xs[-n:]` as used in `convert_history_to_messages`.  Note the
Python quirk: `xs[-0:]` is the whole list, not the empty list. -/
def pyLastSlice {α : Type} (n : Nat) (xs : List α) : List α :=
  if n = 0 then xs else xs.drop (xs.length - n)

/-- The medical-domain system prompt that `convert_history_to_messages`
unconditionally prepends (its wording never matters to the properties below,
only its identity; reproduced here from the source with the line breaks
written as explicit newline escapes). -/
def medical_system_prompt : String :=
  "당신은 의료 관련 질문에 답변하는 전문적이고 도움이 되는 AI 어시스턴트입니다.\n\n주요 역할:\n- 의료/과학 논문 검색 및 연구 정보 제공\n- 의료 정보에 대한 정확하고 신뢰할 수 있는 답변 제공\n- 이전 대화 내용을 기억하고 맥락을 고려한 연속적인 대화\n- 복잡한 의학 용어를 이해하기 쉽게 설명\n- 필요시 전문의 상담을 권유\n\n사용 가능한 도구들:\n- PubMed 검색: 의학/과학 논문 검색 및 분석\n- 기타 의료 관련 데이터베이스\n\n중요 사항:\n- 진단이나 치료를 직접 제공하지 않고, 일반적인 정보만 제공\n- 응급 상황 시 즉시 의료진에게 연락하도록 안내\n- 이전 대화 내용을 참고하여 연관성 있는 답변 제공\n- 논문 검색 시 영어 번역을 통해 정확한 검색 수행"

/-- The general-purpose system prompt that `korean_agent` inserts when no
SystemMessage is present in the state (first line; only its identity matters
to the properties below — it is inserted either wholly or not at all). -/
def general_system_prompt : String :=
  "당신은 다양한 정보를 제공하는 전문적이고 도움이 되는 AI 어시스턴트입니다."

/-- Model of `convert_history_to_messages(history, max_turns)`: prepend the medical
system prompt, keep only user/assistant entries, keep the last
`max_turns*2` of them (only when strictly more are present), and convert
each to a HumanMessage or AIMessage. -/
def convert_history_to_messages (history : List HistMsg) (max_turns : Nat) :
    List Message :=
  let filtered_history := history.filter fun m =>
    m.role = "user" || m.role = "assistant"
  let recent_history :=
    if filtered_history.length > max_turns * 2 then
      pyLastSlice (max_turns * 2) filtered_history
    else filtered_history
  Message.system medical_system_prompt ::
    recent_history.filterMap fun m =>
      if m.role = "user" then some (Message.human m.content)
      else if m.role = "assistant" then some (Message.ai m.content [])
      else none

/-- The graph input built by `process_query_smart` (step 4): the converted
history followed by the new user query. -/
def process_query_inputs (history : List HistMsg) (max_turns : Nat)
    (query : String) : List Message :=
  convert_history_to_messages history max_turns ++ [Message.human query]

/-- Reversed scan `for message in reversed(messages)` stopping at the first HumanMessage. -/
def find_last_human (msgs : List Message) : Option Message :=
  msgs.reverse.find? isHuman

/-- The reversed scan of `translate_to_korean` for the latest ToolMessage. -/
def find_last_tool_message (msgs : List Message) : Option Message :=
  msgs.reverse.find? isToolMsg

/-- The reversed scan of `translate_to_korean` for the latest AIMessage
without tool calls. -/
def find_last_ai_without_tool_calls (msgs : List Message) : Option Message :=
  msgs.reverse.find? isAINoToolCalls

/-- Python truthiness of `m.content` for an optionally-found message. -/
def truthy_content : Option Message → Option String
  | some m => if msg_content m = "" then none else some (msg_content m)
  | none => none

/-- Python `s.strip()` (computed on the character list so that concrete
evaluations reduce in the kernel). -/
def py_strip (s : String) : String :=
  String.mk
    (((s.toList.dropWhile Char.isWhitespace).reverse.dropWhile
        Char.isWhitespace).reverse)

/-- Python `s.lower()` (ASCII case folding, which is all the classifier's
keyword check needs). -/
def py_lower (s : String) : String :=
  String.mk (s.toList.map Char.toLower)

/-- Outcome of a Python call that can raise: the produced value, or the
exception text `str(e)`. -/
inductive PyResult (α : Type) where
  | ok (value : α)
  | raised (e : String)
deriving DecidableEq, Repr

/-- Model of the `translate_to_english` node: find the most recent HumanMessage; if none,
return the empty update; otherwise return `messages[:-1]` with a new
HumanMessage holding the translator output (`response.content.strip()`)
appended.  `model_output` abstracts the translator model's response content. -/
def translate_to_english (msgs : List Message) (model_output : String) :
    List Message :=
  match find_last_human msgs with
  | none => []
  | some _ =>
      let translated_text := py_strip model_output
      msgs.dropLast ++ [Message.human translated_text]

/-- Model of the `call_model` node body: the update `[response]`. -/
def call_model_update (response : Message) : List Message := [response]

/-- Model of the `translate_to_korean` node: pick the latest ToolMessage with truthy
content, else the latest tool-call-free AIMessage with truthy content; if
neither exists return the fixed apology message; otherwise return the
translator output (or, if the translator raised, the error message). -/
def translate_to_korean (msgs : List Message)
    (translator : PyResult String) : List Message :=
  let last_tool_message := find_last_tool_message msgs
  let last_ai_message := find_last_ai_without_tool_calls msgs
  let content_to_translate :=
    (truthy_content last_tool_message).orElse
      fun _ => truthy_content last_ai_message
  match content_to_translate with
  | none =>
      [Message.ai "죄송합니다. 번역할 내용을 찾을 수 없습니다. 다시 시도해 주세요." []]
  | some _ =>
      match translator with
      | PyResult.ok resp => [Message.ai (py_strip resp) []]
      | PyResult.raised e => [Message.ai ("번역 중 오류가 발생했습니다: " ++ e) []]

/-- Model of the `korean_direct_answer` node: if no HumanMessage exists return the empty
update, else answer with the model output (`response.content.strip()`). -/
def korean_direct_answer (msgs : List Message) (model_output : String) :
    List Message :=
  match find_last_human msgs with
  | none => []
  | some _ => [Message.ai (py_strip model_output) []]

/-- The reversed scan of `format_korean_response`: the first (from the back)
ToolMessage with truthy content or tool-call-free AIMessage with truthy
content wins (single loop with `break`). -/
def first_formatted_content : List Message → Option String
  | [] => none
  | Message.tool c _ :: rest =>
      if c = "" then first_formatted_content rest else some c
  | Message.ai c tool_calls :: rest =>
      if c ≠ "" && tool_calls.isEmpty then some c
      else first_formatted_content rest
  | _ :: rest => first_formatted_content rest

/-- Model of the `format_korean_response` node of the general graph. -/
def format_korean_response (msgs : List Message) : List Message :=
  match first_formatted_content msgs.reverse with
  | some last_content => [Message.ai last_content []]
  | none => [Message.ai "죄송합니다. 응답을 생성할 수 없습니다." []]

/-! ### Tool dispatch (`action` nodes) -/

/-- An MCP tool as seen from the agent: name, optional description, and the
parameter names extracted from its args schema. -/
structure Tool where
  name : String
  description : Option String
  params : List String
deriving DecidableEq, Repr

/-- Outcome of `async with connect_all_mcp_servers(...)` inside a tool node:
the freshly aggregated tool list, or the exception it raised. -/
inductive ConnectOutcome where
  | ok (tools : List Tool)
  | raised (e : String)
deriving DecidableEq, Repr

/-- Outcome of `ToolNode(fresh_tools).ainvoke(state)`: the ToolMessage update
it produced, or the exception it raised. -/
inductive ExecOutcome where
  | ok (msgs : List Message)
  | raised (e : String)
deriving DecidableEq, Repr

/-- Model of `safe_tool_node` of the medical graph: reconnect, run the tools, and on
any exception return the single synthetic error ToolMessage with the sentinel
call-id "error".  When the connection succeeds but yields no tools the Python
function falls through and returns `None` (modelled as `none` — no update). -/
def safe_tool_node (connect : ConnectOutcome) (exec_result : ExecOutcome) :
    Option (List Message) :=
  match connect with
  | ConnectOutcome.raised e =>
      some [Message.tool ("도구 실행 중 오류 발생: " ++ e) "error"]
  | ConnectOutcome.ok fresh_tools =>
      if fresh_tools.isEmpty then none
      else
        match exec_result with
        | ExecOutcome.ok msgs => some msgs
        | ExecOutcome.raised e =>
            some [Message.tool ("도구 실행 중 오류 발생: " ++ e) "error"]

/-- Model of `simple_tool_node` of the general graph (same body as `safe_tool_node`,
duplicated in the source). -/
def simple_tool_node (connect : ConnectOutcome) (exec_result : ExecOutcome) :
    Option (List Message) :=
  match connect with
  | ConnectOutcome.raised e =>
      some [Message.tool ("도구 실행 중 오류 발생: " ++ e) "error"]
  | ConnectOutcome.ok fresh_tools =>
      if fresh_tools.isEmpty then none
      else
        match exec_result with
        | ExecOutcome.ok msgs => some msgs
        | ExecOutcome.raised e =>
            some [Message.tool ("도구 실행 중 오류 발생: " ++ e) "error"]

/-! ### Conditional-edge logic and the two graph topologies -/

/-- Model of `should_continue_or_answer_medical`: inspect `state["messages"][-1]`.
`none` models the IndexError Python would raise on an empty sequence. -/
def should_continue_or_answer_medical (msgs : List Message) : Option String :=
  match msgs.getLast? with
  | none => none
  | some last_message =>
      if isAIWithToolCalls last_message then some "continue"
      else some "direct_answer"

/-- Model of `should_continue_or_answer_general` (identical body, duplicated in the
source). -/
def should_continue_or_answer_general (msgs : List Message) : Option String :=
  match msgs.getLast? with
  | none => none
  | some last_message =>
      if isAIWithToolCalls last_message then some "continue"
      else some "direct_answer"

/-- Model of `after_action_medical`: after the action node, always "translate". -/
def after_action_medical (_state : List Message) : String := "translate"

/-- Nodes of the medical graph topology. -/
inductive MedNode where
  | translate_to_english
  | agent
  | action
  | translate_to_korean
  | direct_answer
deriving DecidableEq, Repr

/-- Nodes of the general graph topology. -/
inductive GenNode where
  | agent
  | action
  | format_response
  | direct_answer
deriving DecidableEq, Repr

/-- Where a graph run stands after leaving a node: at another node, at END,
or aborted by an uncaught routing error. -/
inductive Next (ν : Type) where
  | node (n : ν)
  | done
  | err
deriving DecidableEq, Repr

/-- The medical graph's edges as wired by `create_medical_workflow`:
entry `translate_to_english` → `agent`; conditional from `agent` via
`should_continue_or_answer_medical` with map continue ↦ action,
direct_answer ↦ direct_answer; conditional from `action` via
`after_action_medical` with map agent ↦ agent, translate ↦
translate_to_korean; `translate_to_korean` → END; `direct_answer` → END. -/
def med_next (n : MedNode) (s : List Message) : Next MedNode :=
  match n with
  | MedNode.translate_to_english => Next.node MedNode.agent
  | MedNode.agent =>
      match should_continue_or_answer_medical s with
      | some "continue" => Next.node MedNode.action
      | some "direct_answer" => Next.node MedNode.direct_answer
      | _ => Next.err
  | MedNode.action =>
      match after_action_medical s with
      | "agent" => Next.node MedNode.agent
      | "translate" => Next.node MedNode.translate_to_korean
      | _ => Next.err
  | MedNode.translate_to_korean => Next.done
  | MedNode.direct_answer => Next.done

/-- The general graph's edges as wired by `create_general_workflow`:
entry `agent`; conditional from `agent` via
`should_continue_or_answer_general` with map continue ↦ action,
direct_answer ↦ direct_answer; `action` → `format_response`;
`format_response` → END; `direct_answer` → END. -/
def gen_next (n : GenNode) (s : List Message) : Next GenNode :=
  match n with
  | GenNode.agent =>
      match should_continue_or_answer_general s with
      | some "continue" => Next.node GenNode.action
      | some "direct_answer" => Next.node GenNode.direct_answer
      | _ => Next.err
  | GenNode.action => Next.node GenNode.format_response
  | GenNode.format_response => Next.done
  | GenNode.direct_answer => Next.done

/-! ### Graph execution -/

/-- Per-step oracles for a medical-graph run: the content the external
models and tool servers produce at that step. -/
structure MedOracles where
  en_output : String
  agent_content : String
  agent_tool_calls : List ToolCall
  connect : ConnectOutcome
  tool_exec : ExecOutcome
  ko_translator : PyResult String
  direct_output : String

/-- The update a medical-graph node contributes to the messages channel.
A `None` return from `safe_tool_node` is merged as the empty update. -/
def med_node_update (n : MedNode) (o : MedOracles) (s : List Message) :
    List Message :=
  match n with
  | MedNode.translate_to_english => translate_to_english s o.en_output
  | MedNode.agent =>
      call_model_update (Message.ai o.agent_content o.agent_tool_calls)
  | MedNode.action => (safe_tool_node o.connect o.tool_exec).getD []
  | MedNode.translate_to_korean => translate_to_korean s o.ko_translator
  | MedNode.direct_answer => korean_direct_answer s o.direct_output

/-- State of a medical-graph run after `k` engine steps: the position
(current node, END, or error) and the messages channel.  Step `k`
executes the node reached after `k` steps, merges its update through the
`add_messages` reducer, and follows the outgoing edge evaluated on the
merged state. -/
def med_state (o : Nat → MedOracles) (inputs : List Message) :
    Nat → Next MedNode × List Message
  | 0 => (Next.node MedNode.translate_to_english, inputs)
  | k + 1 =>
      match med_state o inputs k with
      | (Next.node n, s) =>
          let merged := add_messages s (med_node_update n (o k) s)
          (med_next n merged, merged)
      | finished => finished

/-- Per-step oracles for a general-graph run. -/
structure GenOracles where
  agent_content : String
  agent_tool_calls : List ToolCall
  connect : ConnectOutcome
  tool_exec : ExecOutcome
  direct_output : String

/-- The update a general-graph node contributes to the messages channel.
`korean_agent` may prepend a system prompt to what it sends the model, but
its returned update is `call_model`'s `[response]` either way. -/
def gen_node_update (n : GenNode) (o : GenOracles) (s : List Message) :
    List Message :=
  match n with
  | GenNode.agent =>
      call_model_update (Message.ai o.agent_content o.agent_tool_calls)
  | GenNode.action => (simple_tool_node o.connect o.tool_exec).getD []
  | GenNode.format_response => format_korean_response s
  | GenNode.direct_answer => korean_direct_answer s o.direct_output

/-- State of a general-graph run after `k` engine steps. -/
def gen_state (o : Nat → GenOracles) (inputs : List Message) :
    Nat → Next GenNode × List Message
  | 0 => (Next.node GenNode.agent, inputs)
  | k + 1 =>
      match gen_state o inputs k with
      | (Next.node n, s) =>
          let merged := add_messages s (gen_node_update n (o k) s)
          (gen_next n merged, merged)
      | finished => finished

/-- The sequence of nodes a medical run executes (5 steps cover every run,
as proved below). -/
def med_visited (o : Nat → MedOracles) (inputs : List Message) :
    List MedNode :=
  (List.range 5).filterMap fun k =>
    match (med_state o inputs k).1 with
    | Next.node n => some n
    | _ => none

/-- The sequence of nodes a general run executes. -/
def gen_visited (o : Nat → GenOracles) (inputs : List Message) :
    List GenNode :=
  (List.range 4).filterMap fun k =>
    match (gen_state o inputs k).1 with
    | Next.node n => some n
    | _ => none

/-- The message list `korean_agent` actually sends to the model: the state
messages, with the general system prompt prepended only when no
SystemMessage is already present. -/
def korean_agent_model_input (msgs : List Message) : List Message :=
  let has_system_prompt := msgs.any isSystemMsg
  if has_system_prompt then msgs
  else Message.system general_system_prompt :: msgs

/-! ### Workflow classifier (`LLMWorkflowClassifier`) -/

/-- A Python dict with string keys, as an association list in insertion
order.  Lookup finds the first (only) binding of a key. -/
def dict_get {β : Type} : List (String × β) → String → Option β
  | [], _ => none
  | (k0, v0) :: rest, k => if k0 = k then some v0 else dict_get rest k

/-- Dict write `d[k] = v`: replace the binding in place if the key exists, otherwise
append it. -/
def dict_set {β : Type} : List (String × β) → String → β → List (String × β)
  | [], k, v => [(k, v)]
  | (k0, v0) :: rest, k, v =>
      if k0 = k then (k0, v) :: rest else (k0, v0) :: dict_set rest k v

def dict_keys {β : Type} (d : List (String × β)) : List String :=
  d.map Prod.fst

/-- A Python float literal written as m × 10^(-e), kept structural so that
equality of the classifier's confidence constants evaluates in the kernel. -/
structure PyFloat where
  mantissa : Int
  exp10 : Nat
deriving DecidableEq, Repr

/-- A JSON value as far as the classifier inspects one. -/
inductive JVal where
  | str (s : String)
  | num (f : PyFloat)
  | other
deriving DecidableEq, Repr

/-- The JSON object `json.loads` would return for the extracted text. -/
def JObj : Type := List (String × JVal)

/-- Brace and quote characters written by code point, so the embedding text
stays plain. -/
def openBrace : Char := Char.ofNat 123

def closeBrace : Char := Char.ofNat 125

def singleQuote : Char := Char.ofNat 39

/-- The regex search of `parse_llm_response` (pattern: open brace, any
characters, close brace; DOTALL): leftmost-then-
greedy, so the match runs from the first opening brace to the last closing
brace, provided the latter comes after the former. -/
def extract_json (s : String) : Option String :=
  let cs := s.toList
  match cs.findIdx? (fun a => a == openBrace) with
  | none => none
  | some i =>
      match cs.reverse.findIdx? (fun a => a == closeBrace) with
      | none => none
      | some r =>
          let j := cs.length - 1 - r
          if i < j then some (String.mk ((cs.drop i).take (j - i + 1)))
          else none

/-- Is `pat` a contiguous substring of `xs` (Python `in` on strings)? -/
def starts_with : List Char → List Char → Bool
  | [], _ => true
  | _ :: _, [] => false
  | a :: as_, b :: bs => a == b && starts_with as_ bs

def contains_sub (pat : List Char) : List Char → Bool
  | [] => pat.isEmpty
  | c :: rest => starts_with pat (c :: rest) || contains_sub pat rest

/-- The classifier's result dict: workflow tag, confidence, reason, method.
Confidence and reason hold whatever JSON values the model supplied. -/
structure ClassificationResult where
  workflow : String
  confidence : JVal
  reason : JVal
  method : String
deriving DecidableEq, Repr

/-- The keyword fallback of `parse_llm_response` (step after a failed JSON
extraction): case-insensitive substring check for "medical". -/
def text_keyword_fallback (response_content : String) : ClassificationResult :=
  if contains_sub "medical".toList (py_lower response_content).toList then
    { workflow := "medical", confidence := JVal.num { mantissa := 7, exp10 := 1 },
      reason := JVal.str "텍스트 파싱", method := "fallback" }
  else
    { workflow := "general", confidence := JVal.num { mantissa := 7, exp10 := 1 },
      reason := JVal.str "텍스트 파싱", method := "fallback" }

/-- Model of `parse_llm_response(response_content)`.  `jsonLoads` abstracts
`json.loads`; `none` stands for the ValueError it raises on malformed text,
which the surrounding `except` turns into the method="error" default. -/
def parse_llm_response (jsonLoads : String → Option JObj)
    (response_content : String) : ClassificationResult :=
  match extract_json response_content with
  | some json_str =>
      match jsonLoads json_str with
      | none =>
          { workflow := "general", confidence := JVal.num { mantissa := 5, exp10 := 1 },
            reason := JVal.str "파싱 실패", method := "error" }
      | some result =>
          match dict_get result "workflow" with
          | some (JVal.str w) =>
              if w = "medical" || w = "general" then
                { workflow := w,
                  confidence := (dict_get result "confidence").getD (JVal.num { mantissa := 8, exp10 := 1 }),
                  reason := (dict_get result "reason").getD (JVal.str "LLM 분류"),
                  method := "llm" }
              else text_keyword_fallback response_content
          | some _ => text_keyword_fallback response_content
          | none => text_keyword_fallback response_content
  | none => text_keyword_fallback response_content

/-- A tool's details as gathered by `extract_tool_descriptions`. -/
structure ToolInfo where
  name : String
  description : String
  parameters : List String
deriving DecidableEq, Repr

def extract_tool_descriptions (tools : List Tool) : List ToolInfo :=
  tools.map fun t =>
    { name := t.name, description := t.description.getD "설명 없음",
      parameters := t.params }

/-- Model of `get_fallback_classification`: the hardcoded safe default used on
timeout or any invocation error. -/
def get_fallback_classification (_query : String) (_tool_info : List ToolInfo) :
    ClassificationResult :=
  { workflow := "general", confidence := JVal.num { mantissa := 5, exp10 := 1 },
    reason := JVal.str "LLM 분류 실패로 기본값 사용", method := "fallback" }

/-- Python `str([t.name for t in tools])`. -/
def pyStrOfNameList (names : List String) : String :=
  let q := String.singleton singleQuote
  "[" ++ String.intercalate ", " (names.map fun n => q ++ n ++ q) ++ "]"

/-- The cache key `f"(query)_(len(tools))_(hash(str([t.name for t in tools])))"`
with `pyHash` abstracting Python's deterministic-per-process `hash`. -/
def cache_key (pyHash : String → Int) (query : String) (tools : List Tool) :
    String :=
  query ++ "_" ++ toString tools.length ++ "_"
    ++ toString (pyHash (pyStrOfNameList (tools.map Tool.name)))

/-- Outcome of `asyncio.wait_for(self.llm.ainvoke(...), timeout=15.0)`. -/
inductive LLMOutcome where
  | ok (content : String)
  | timeout
  | raised (e : String)
deriving DecidableEq, Repr

/-- What one call to `classify_workflow` produces: the returned result, the
cache afterwards, and whether the model was invoked. -/
structure ClassifyCall where
  result : ClassificationResult
  cache : List (String × ClassificationResult)
  model_called : Bool
deriving DecidableEq, Repr

/-- Model of `LLMWorkflowClassifier.classify_workflow(query, tools)` over an explicit
cache.  Cache hit returns immediately; a model response is parsed and cached
under the key; timeout and invocation errors return the fallback default
without caching. -/
def classify_workflow (jsonLoads : String → Option JObj)
    (pyHash : String → Int) (cache : List (String × ClassificationResult))
    (query : String) (tools : List Tool) (llm : LLMOutcome) : ClassifyCall :=
  let key := cache_key pyHash query tools
  match dict_get cache key with
  | some cached_result =>
      { result := cached_result, cache := cache, model_called := false }
  | none =>
      let tool_info := extract_tool_descriptions tools
      match llm with
      | LLMOutcome.ok content =>
          let result := parse_llm_response jsonLoads content
          { result := result, cache := dict_set cache key result,
            model_called := true }
      | LLMOutcome.timeout =>
          { result := get_fallback_classification query tool_info,
            cache := cache, model_called := true }
      | LLMOutcome.raised _ =>
          { result := get_fallback_classification query tool_info,
            cache := cache, model_called := true }

/-- The workflow accepted by the strict-JSON path of `parse_llm_response`,
if any: a brace-delimited span must exist, `json.loads` must succeed on it,
and its "workflow" field must be the string "medical" or "general". -/
def llm_json_workflow (jsonLoads : String → Option JObj) (content : String) :
    Option String :=
  match extract_json content with
  | none => none
  | some json_str =>
      match jsonLoads json_str with
      | none => none
      | some result =>
          match dict_get result "workflow" with
          | some (JVal.str w) =>
              if w = "medical" || w = "general" then some w else none
          | _ => none

/-- A concrete `json.loads` oracle that fails on everything (used for the
concrete evaluations below). -/
def jsonLoads0 : String → Option JObj := fun _ => none

/-- A concrete Python-hash oracle (used for the concrete evaluations below). -/
def pyHash0 : String → Int := fun _ => 0

/-! ### MCP connection manager -/

/-- One `st.session_state.server_status[name]` record as written by
`update_server_status` (status tag, tool count, error/progress message; the
wall-clock timestamp is not modelled). -/
structure StatusRecord where
  status : String
  tools_count : Nat
  error_message : String
deriving DecidableEq, Repr

/-- How one server behaves during `connect_mcp_server`: transport/session
entry raises, `session.initialize()` times out (30 time-units) or raises, or
everything succeeds and `load_mcp_tools` yields this tool list. -/
inductive ServerOutcome where
  | ok (tools : List Tool)
  | initTimeout
  | initRaised (e : String)
  | connectRaised (e : String)
deriving DecidableEq, Repr

/-- Model of `connect_mcp_server(server_name, server_config)`: the sequence of status
records it writes for that server, in order, and either the loaded tools
(yielded to the caller) or the exception it re-raises.  Failures inside the
session are first recorded with their causal message, then recorded again
wrapped by the outer handler as "서버 연결 실패: ...", which is what
propagates. -/
def connect_mcp_server (outcome : ServerOutcome) :
    List StatusRecord × PyResult (List Tool) :=
  match outcome with
  | ServerOutcome.ok ts =>
      ([{ status := "connecting", tools_count := 0,
          error_message := "서버 연결 시도 중..." },
        { status := "connecting", tools_count := 0,
          error_message := "클라이언트 세션 초기화 중..." },
        { status := "connecting", tools_count := 0,
          error_message := "도구 로드 중..." },
        { status := "connected", tools_count := ts.length,
          error_message := toString ts.length ++ "개 도구 연결 성공" }],
       PyResult.ok ts)
  | ServerOutcome.initTimeout =>
      ([{ status := "connecting", tools_count := 0,
          error_message := "서버 연결 시도 중..." },
        { status := "connecting", tools_count := 0,
          error_message := "클라이언트 세션 초기화 중..." },
        { status := "failed", tools_count := 0,
          error_message := "서버 초기화 타임아웃 (30초 초과)" },
        { status := "failed", tools_count := 0,
          error_message := "서버 연결 실패: 서버 초기화 타임아웃 (30초 초과)" }],
       PyResult.raised "서버 연결 실패: 서버 초기화 타임아웃 (30초 초과)")
  | ServerOutcome.initRaised e =>
      ([{ status := "connecting", tools_count := 0,
          error_message := "서버 연결 시도 중..." },
        { status := "connecting", tools_count := 0,
          error_message := "클라이언트 세션 초기화 중..." },
        { status := "failed", tools_count := 0,
          error_message := "세션 초기화 실패: " ++ e },
        { status := "failed", tools_count := 0,
          error_message := "서버 연결 실패: 세션 초기화 실패: " ++ e }],
       PyResult.raised ("서버 연결 실패: 세션 초기화 실패: " ++ e))
  | ServerOutcome.connectRaised e =>
      ([{ status := "connecting", tools_count := 0,
          error_message := "서버 연결 시도 중..." },
        { status := "failed", tools_count := 0,
          error_message := "서버 연결 실패: " ++ e }],
       PyResult.raised ("서버 연결 실패: " ++ e))

/-- The status record a server ends up with once `connect_mcp_server` has
run for it (the last record of the written sequence). -/
def final_status (outcome : ServerOutcome) : StatusRecord :=
  match outcome with
  | ServerOutcome.ok ts =>
      { status := "connected", tools_count := ts.length,
        error_message := toString ts.length ++ "개 도구 연결 성공" }
  | ServerOutcome.initTimeout =>
      { status := "failed", tools_count := 0,
        error_message := "서버 연결 실패: 서버 초기화 타임아웃 (30초 초과)" }
  | ServerOutcome.initRaised e =>
      { status := "failed", tools_count := 0,
        error_message := "서버 연결 실패: 세션 초기화 실패: " ++ e }
  | ServerOutcome.connectRaised e =>
      { status := "failed", tools_count := 0,
        error_message := "서버 연결 실패: " ++ e }

/-- Replay a server's sequence of `update_server_status` writes into the
shared `server_status` dict. -/
def apply_status_updates (store : List (String × StatusRecord))
    (name : String) : List StatusRecord → List (String × StatusRecord)
  | [] => store
  | u :: us => apply_status_updates (dict_set store name u) name us

/-- Does this outcome fail handshake or session initialization? -/
def is_fail_outcome : ServerOutcome → Bool
  | ServerOutcome.ok _ => false
  | _ => true

/-- The tools of the succeeding servers, in configuration order. -/
def ok_tools : List (String × ServerOutcome) → List Tool
  | [] => []
  | (_, ServerOutcome.ok ts) :: rest => ts ++ ok_tools rest
  | _ :: rest => ok_tools rest

/-- One iteration of the `for server_id, config in mcp_config.items()` loop
of `connect_all_mcp_servers`: on success extend `all_tools`, on exception
`continue` (the status was already recorded by `connect_mcp_server`). -/
def connect_all_step (acc : List Tool × List (String × StatusRecord))
    (server : String × ServerOutcome) :
    List Tool × List (String × StatusRecord) :=
  let called := connect_mcp_server server.2
  let store := apply_status_updates acc.2 server.1 called.1
  match called.2 with
  | PyResult.ok ts => (acc.1 ++ ts, store)
  | PyResult.raised _ => (acc.1, store)

/-- Model of `connect_all_mcp_servers(mcp_config)`: dial every configured server,
aggregate the succeeding servers' tools, record every server's status.
The configuration is a dict, so its server names are pairwise distinct. -/
def connect_all_mcp_servers (cfg : List (String × ServerOutcome)) :
    List Tool × List (String × StatusRecord) :=
  cfg.foldl connect_all_step ([], [])

/-- How many recorded servers ended in the "failed" state. -/
def count_failed (store : List (String × StatusRecord)) : Nat :=
  (store.filter fun p => p.2.status = "failed").length

/-! ### Retry wrapper (`ToolManager.get_tools_with_retry`) -/

/-- What one call to `get_tools_with_retry` produces: the returned tools or
the re-raised exception, how many times the full connect sequence ran, and
how many 1-time-unit sleeps happened between attempts. -/
structure RetryResult where
  result : PyResult (List Tool)
  attempts : Nat
  sleeps : Nat
deriving DecidableEq, Repr

/-- The `for attempt in range(max_retries)` loop, driven by the successive
outcomes of `async with connect_all_mcp_servers(...)` (one outcome per
remaining attempt; the list length is `max_retries`, default 2).  A
non-raising attempt returns its tools at once — even when the list is
empty.  A raising attempt re-raises if it was the last, else sleeps one
time-unit and retries.  An empty outcome list models `max_retries = 0`,
where the loop body never runs and the function returns `[]`. -/
def retry_from : List (PyResult (List Tool)) → RetryResult
  | [] => { result := PyResult.ok [], attempts := 0, sleeps := 0 }
  | PyResult.ok ts :: _ =>
      { result := PyResult.ok ts, attempts := 1, sleeps := 0 }
  | [PyResult.raised e] =>
      { result := PyResult.raised e, attempts := 1, sleeps := 0 }
  | PyResult.raised _ :: rest =>
      let r := retry_from rest
      { result := r.result, attempts := r.attempts + 1, sleeps := r.sleeps + 1 }

/-- Model of `ToolManager.get_tools_with_retry(mcp_config, max_retries)` with the
attempt outcomes supplied explicitly. -/
def get_tools_with_retry (outcomes : List (PyResult (List Tool))) :
    RetryResult :=
  retry_from outcomes

/-- Did this attempt raise? -/
def attempt_raised : PyResult (List Tool) → Bool
  | PyResult.raised _ => true
  | PyResult.ok _ => false

/-! ## Theorems -/

/-- Both termination indices of a medical run: by engine step 4 every run
has reached END, hence also by step 5. -/
lemma med_run_done (o : Nat → MedOracles) (inputs : List Message) :
    (med_state o inputs 4).1 = Next.done ∧
    (med_state o inputs 5).1 = Next.done := by
  by_cases h : (o 1).agent_tool_calls = [] <;>
    constructor <;>
      simp [med_state, med_node_update, med_next,
        should_continue_or_answer_medical, add_messages, call_model_update, h,
        after_action_medical, isAIWithToolCalls]

/-- The two possible node traces of a medical run. -/
lemma med_run_visited (o : Nat → MedOracles) (inputs : List Message) :
    med_visited o inputs =
        [MedNode.translate_to_english, MedNode.agent, MedNode.action,
         MedNode.translate_to_korean] ∨
      med_visited o inputs =
        [MedNode.translate_to_english, MedNode.agent, MedNode.direct_answer] := by
  by_cases h : (o 1).agent_tool_calls = []
  · refine Or.inr ?_
    simp [med_visited, med_state, med_node_update, med_next,
      should_continue_or_answer_medical, add_messages, call_model_update, h,
      after_action_medical, isAIWithToolCalls, List.range_succ]
  · refine Or.inl ?_
    simp [med_visited, med_state, med_node_update, med_next,
      should_continue_or_answer_medical, add_messages, call_model_update, h,
      after_action_medical, isAIWithToolCalls, List.range_succ]

/-- Both termination indices of a general run: by engine step 3 every run
has reached END, hence also by step 4. -/
lemma gen_run_done (o : Nat → GenOracles) (inputs : List Message) :
    (gen_state o inputs 3).1 = Next.done ∧
    (gen_state o inputs 4).1 = Next.done := by
  by_cases h : (o 0).agent_tool_calls = [] <;>
    constructor <;>
      simp [gen_state, gen_node_update, gen_next,
        should_continue_or_answer_general, add_messages, call_model_update, h,
        isAIWithToolCalls]

/-- The two possible node traces of a general run. -/
lemma gen_run_visited (o : Nat → GenOracles) (inputs : List Message) :
    gen_visited o inputs =
        [GenNode.agent, GenNode.action, GenNode.format_response] ∨
      gen_visited o inputs = [GenNode.agent, GenNode.direct_answer] := by
  by_cases h : (o 0).agent_tool_calls = []
  · refine Or.inr ?_
    simp [gen_visited, gen_state, gen_node_update, gen_next,
      should_continue_or_answer_general, add_messages, call_model_update, h,
      isAIWithToolCalls, List.range_succ]
  · refine Or.inl ?_
    simp [gen_visited, gen_state, gen_node_update, gen_next,
      should_continue_or_answer_general, add_messages, call_model_update, h,
      isAIWithToolCalls, List.range_succ]

/-- Claim C4: every run of either graph topology reaches END within a
bounded number of node executions — at most 5 for the medical graph and at
most 4 for the general graph (in fact 4 and 3) — and no run revisits a
node: under the implemented routing both topologies are acyclic. -/
theorem c4_graph_termination_and_acyclicity :
    ∀ (om : Nat → MedOracles) (og : Nat → GenOracles) (inputs : List Message),
      (med_state om inputs 5).1 = Next.done ∧
      (gen_state og inputs 4).1 = Next.done ∧
      (med_visited om inputs).Nodup ∧
      (gen_visited og inputs).Nodup := by
  intro om og inputs
  refine ⟨(med_run_done om inputs).2, (gen_run_done og inputs).2, ?_, ?_⟩
  · rcases med_run_visited om inputs with h | h <;> rw [h] <;> decide
  · rcases gen_run_visited og inputs with h | h <;> rw [h] <;> decide

/-- Claim C5: in the medical graph, after the action node the run always
transitions to translate_to_korean and then to END; it never routes from
action back to the agent node, so no run executes more than one tool
round. -/
theorem c5_action_always_routes_to_korean_translation :
    ∀ (s : List Message) (om : Nat → MedOracles) (inputs : List Message),
      med_next MedNode.action s = Next.node MedNode.translate_to_korean ∧
      med_next MedNode.translate_to_korean s = Next.done ∧
      med_next MedNode.action s ≠ Next.node MedNode.agent ∧
      (med_visited om inputs).count MedNode.action ≤ 1 := by
  intro s om inputs
  refine ⟨rfl, rfl, by simp [med_next, after_action_medical], ?_⟩
  rcases med_run_visited om inputs with h | h <;> rw [h] <;> decide

/-- Evaluating the medical conditional edge out of `agent` on a nonempty
state. -/
lemma med_next_agent_eq (s : List Message) (h : s ≠ []) :
    med_next MedNode.agent s =
      (if isAIWithToolCalls (s.getLast h) then Next.node MedNode.action
       else Next.node MedNode.direct_answer) := by
  have hl : s.getLast? = some (s.getLast h) := List.getLast?_eq_getLast s h
  by_cases hb : isAIWithToolCalls (s.getLast h) <;>
    simp [med_next, should_continue_or_answer_medical, hl, hb]

/-- Evaluating the general conditional edge out of `agent` on a nonempty
state. -/
lemma gen_next_agent_eq (s : List Message) (h : s ≠ []) :
    gen_next GenNode.agent s =
      (if isAIWithToolCalls (s.getLast h) then Next.node GenNode.action
       else Next.node GenNode.direct_answer) := by
  have hl : s.getLast? = some (s.getLast h) := List.getLast?_eq_getLast s h
  by_cases hb : isAIWithToolCalls (s.getLast h) <;>
    simp [gen_next, should_continue_or_answer_general, hl, hb]

/-- Unfolding `isAIWithToolCalls`: exactly "an Assistant message carrying one or
more pending tool-call requests". -/
lemma isAIWithToolCalls_iff (m : Message) :
    isAIWithToolCalls m = true ↔
      ∃ c tool_calls, m = Message.ai c tool_calls ∧ tool_calls ≠ [] := by
  constructor
  · intro hb
    cases m with
    | ai c tcs =>
        refine ⟨c, tcs, rfl, ?_⟩
        intro hnil
        subst hnil
        simp [isAIWithToolCalls] at hb
    | system c => simp [isAIWithToolCalls] at hb
    | human c => simp [isAIWithToolCalls] at hb
    | tool c i => simp [isAIWithToolCalls] at hb
  · rintro ⟨c, tcs, rfl, hne⟩
    simpa [isAIWithToolCalls] using hne

/-- Claim C9: in both topologies, after the agent node the run routes to
the action node exactly when the most recent message is an Assistant
message carrying one or more pending tool-call requests, and otherwise
routes to direct_answer. -/
theorem c9_route_to_action_iff_pending_tool_calls :
    ∀ (s : List Message) (h : s ≠ []),
      (med_next MedNode.agent s = Next.node MedNode.action ↔
        (∃ c tool_calls, s.getLast h = Message.ai c tool_calls ∧
          tool_calls ≠ [])) ∧
      (gen_next GenNode.agent s = Next.node GenNode.action ↔
        (∃ c tool_calls, s.getLast h = Message.ai c tool_calls ∧
          tool_calls ≠ [])) ∧
      ((¬ ∃ c tool_calls, s.getLast h = Message.ai c tool_calls ∧
          tool_calls ≠ []) →
        med_next MedNode.agent s = Next.node MedNode.direct_answer ∧
        gen_next GenNode.agent s = Next.node GenNode.direct_answer) := by
  intro s h
  have hm := isAIWithToolCalls_iff (s.getLast h)
  by_cases hb : isAIWithToolCalls (s.getLast h)
  · refine ⟨?_, ?_, ?_⟩
    · rw [med_next_agent_eq s h, if_pos hb]
      simp only [true_iff]
      exact hm.mp hb
    · rw [gen_next_agent_eq s h, if_pos hb]
      simp only [true_iff]
      exact hm.mp hb
    · intro hnex
      exact absurd (hm.mp hb) hnex
  · refine ⟨?_, ?_, ?_⟩
    · rw [med_next_agent_eq s h, if_neg hb]
      constructor
      · intro hcontra
        simp at hcontra
      · intro hex
        exact absurd (hm.mpr hex) hb
    · rw [gen_next_agent_eq s h, if_neg hb]
      constructor
      · intro hcontra
        simp at hcontra
      · intro hex
        exact absurd (hm.mpr hex) hb
    · intro _
      rw [med_next_agent_eq s h, if_neg hb, gen_next_agent_eq s h, if_neg hb]
      exact ⟨rfl, rfl⟩

/-- Witness for C9 at a concrete nonempty state whose last message is an
Assistant message with one pending tool call. -/
theorem c9_route_to_action_iff_pending_tool_calls_witness :
    med_next MedNode.agent
        [Message.ai "검색할게요"
          [(⟨"search_pubmed", "diabetes", "call_1"⟩ : ToolCall)]] =
      Next.node MedNode.action := by
  have h :
      ([Message.ai "검색할게요"
        [(⟨"search_pubmed", "diabetes", "call_1"⟩ : ToolCall)]] :
          List Message) ≠ [] := by decide
  exact ((c9_route_to_action_iff_pending_tool_calls _ h).1).mpr
    ⟨"검색할게요", [(⟨"search_pubmed", "diabetes", "call_1"⟩ : ToolCall)],
      rfl, by decide⟩

/-- Claim C10: the graph input built by `process_query_smart` always begins
with the medical SystemMessage prepended by `convert_history_to_messages`
(for every history, including the empty one), so the general graph's agent
node, which inserts its own system prompt only when none is present, never
inserts that prompt on such a run. -/
theorem c10_medical_prompt_always_first_general_prompt_never_inserted :
    ∀ (history : List HistMsg) (max_turns : Nat) (query : String),
      (process_query_inputs history max_turns query).head? =
        some (Message.system medical_system_prompt) ∧
      korean_agent_model_input (process_query_inputs history max_turns query) =
        process_query_inputs history max_turns query := by
  intro history max_turns query
  constructor
  · simp [process_query_inputs, convert_history_to_messages]
  · simp [korean_agent_model_input, process_query_inputs,
      convert_history_to_messages, isSystemMsg]

/-- Claim C2 (refuting evaluation at a concrete input): because the
messages channel reducer appends every node update, `translate_to_english`
does not replace the most recent Human message in place — after the node
completes, the original Korean message is still present in the working
sequence and the earlier messages have been duplicated, contradicting the
claimed in-place replacement. -/
theorem c2_translate_to_english_appends_instead_of_replacing :
    add_messages [Message.system "sp", Message.human "당뇨병 최신 논문 검색"]
        (translate_to_english
          [Message.system "sp", Message.human "당뇨병 최신 논문 검색"]
          "latest diabetes papers") =
      [Message.system "sp", Message.human "당뇨병 최신 논문 검색",
       Message.system "sp", Message.human "latest diabetes papers"] ∧
    Message.human "당뇨병 최신 논문 검색" ∈
      add_messages [Message.system "sp", Message.human "당뇨병 최신 논문 검색"]
        (translate_to_english
          [Message.system "sp", Message.human "당뇨병 최신 논문 검색"]
          "latest diabetes papers") := by
  constructor
  · decide
  · decide

/-- Claim C6: whenever tool connection or tool execution raises inside an
action node, both `safe_tool_node` and `simple_tool_node` return the single
synthetic error ToolMessage tagged with the sentinel call-id "error"
instead of propagating the exception — in each such failure case the node
returns a message update, so the graph still reaches a terminal state. -/
theorem c6_action_node_absorbs_tool_errors :
    ∀ (connect : ConnectOutcome) (exec_result : ExecOutcome) (e : String),
      (connect = ConnectOutcome.raised e ∨
        (∃ tools, connect = ConnectOutcome.ok tools ∧ tools ≠ [] ∧
          exec_result = ExecOutcome.raised e)) →
      safe_tool_node connect exec_result =
        some [Message.tool ("도구 실행 중 오류 발생: " ++ e) "error"] ∧
      simple_tool_node connect exec_result =
        some [Message.tool ("도구 실행 중 오류 발생: " ++ e) "error"] := by
  intro connect exec_result e hfail
  rcases hfail with rfl | ⟨tools, rfl, hne, rfl⟩
  · exact ⟨rfl, rfl⟩
  · cases tools with
    | nil => exact absurd rfl hne
    | cons t ts => exact ⟨rfl, rfl⟩

/-- Witness for C6: a concrete connection failure produces the synthetic
error ToolMessage in both action nodes. -/
theorem c6_action_node_absorbs_tool_errors_witness :
    safe_tool_node (ConnectOutcome.raised "connection refused")
        (ExecOutcome.ok []) =
      some [Message.tool "도구 실행 중 오류 발생: connection refused" "error"] ∧
    simple_tool_node (ConnectOutcome.raised "connection refused")
        (ExecOutcome.ok []) =
      some [Message.tool "도구 실행 중 오류 발생: connection refused" "error"] :=
  c6_action_node_absorbs_tool_errors (ConnectOutcome.raised "connection refused")
    (ExecOutcome.ok []) "connection refused" (Or.inl rfl)

/-- When no valid JSON workflow can be extracted from the model output,
`parse_llm_response` lands either in the keyword fallback or in the
method="error" default. -/
lemma parse_llm_response_of_no_json (jsonLoads : String → Option JObj)
    (content : String)
    (hj : llm_json_workflow jsonLoads content = none) :
    parse_llm_response jsonLoads content = text_keyword_fallback content ∨
    parse_llm_response jsonLoads content =
      { workflow := "general",
        confidence := JVal.num { mantissa := 5, exp10 := 1 },
        reason := JVal.str "파싱 실패", method := "error" } := by
  cases hx : extract_json content with
  | none => exact Or.inl (by simp [parse_llm_response, hx])
  | some js =>
      cases hjl : jsonLoads js with
      | none => exact Or.inr (by simp [parse_llm_response, hx, hjl])
      | some result =>
          refine Or.inl ?_
          simp only [llm_json_workflow, hx, hjl] at hj
          cases hw : dict_get result "workflow" with
          | none => simp [parse_llm_response, hx, hjl, hw]
          | some jv =>
              cases jv with
              | str w =>
                  rw [hw] at hj
                  by_cases h1 : w = "medical"
                  · simp [h1] at hj
                  · by_cases h2 : w = "general"
                    · simp [h2] at hj
                    · simp [parse_llm_response, hx, hjl, hw, h1, h2]
              | num f => simp [parse_llm_response, hx, hjl, hw]
              | other => simp [parse_llm_response, hx, hjl, hw]

/-- Claim C1 (refuting evaluation at a concrete input): a model response
from which no JSON object can be extracted but which contains the token
"medical" makes `classify_workflow` return workflow="medical" (via the
keyword fallback), not workflow="general" as claimed. -/
theorem c1_counterexample_medical_keyword_fallback :
    llm_json_workflow jsonLoads0 "please use Medical tools" = none ∧
    (classify_workflow jsonLoads0 pyHash0 [] "아스피린 관련 논문 찾아줘" []
        (LLMOutcome.ok "please use Medical tools")).result.workflow ≠
      "general" ∧
    (classify_workflow jsonLoads0 pyHash0 [] "아스피린 관련 논문 찾아줘" []
        (LLMOutcome.ok "please use Medical tools")).result.workflow =
      "medical" := by
  refine ⟨by decide, by decide, by decide⟩

/-- Claim C1 as amended: on a cache miss where the model invocation times
out, raises, or returns output without an extractable workflow JSON,
`classify_workflow` returns a result whose method tag is the code's
"fallback" or "error" (the spec's fallback-text / fallback-error), and
whose workflow is "general" — except that when the unparseable output
contains the substring "medical" (case-insensitively) the keyword fallback
returns workflow "medical" instead. -/
theorem c1_amended_fallback_paths :
    ∀ (jsonLoads : String → Option JObj) (pyHash : String → Int)
      (cache : List (String × ClassificationResult)) (query : String)
      (tools : List Tool) (llm : LLMOutcome),
      dict_get cache (cache_key pyHash query tools) = none →
      (∀ content, llm = LLMOutcome.ok content →
        llm_json_workflow jsonLoads content = none) →
      ((classify_workflow jsonLoads pyHash cache query tools llm).result.method
          = "fallback" ∨
        (classify_workflow jsonLoads pyHash cache query tools llm).result.method
          = "error") ∧
      ((classify_workflow jsonLoads pyHash cache query tools llm).result.workflow
          = "general" ∨
        (∃ content, llm = LLMOutcome.ok content ∧
          (classify_workflow jsonLoads pyHash cache query tools
            llm).result.workflow = "medical" ∧
          contains_sub "medical".toList (py_lower content).toList = true)) := by
  intro jsonLoads pyHash cache query tools llm hmiss hjson
  cases llm with
  | timeout =>
      exact ⟨Or.inl (by simp [classify_workflow, hmiss,
          get_fallback_classification]),
        Or.inl (by simp [classify_workflow, hmiss, get_fallback_classification])⟩
  | raised e =>
      exact ⟨Or.inl (by simp [classify_workflow, hmiss,
          get_fallback_classification]),
        Or.inl (by simp [classify_workflow, hmiss, get_fallback_classification])⟩
  | ok content =>
      have hres :
          (classify_workflow jsonLoads pyHash cache query tools
            (LLMOutcome.ok content)).result =
            parse_llm_response jsonLoads content := by
        simp [classify_workflow, hmiss]
      rcases parse_llm_response_of_no_json jsonLoads content
          (hjson content rfl) with hp | hp
      · by_cases hsub :
            contains_sub "medical".toList (py_lower content).toList = true
        · have htf : text_keyword_fallback content =
              { workflow := "medical",
                confidence := JVal.num { mantissa := 7, exp10 := 1 },
                reason := JVal.str "텍스트 파싱", method := "fallback" } := by
            simp only [text_keyword_fallback]
            rw [if_pos hsub]
          refine ⟨Or.inl ?_, Or.inr ⟨content, rfl, ?_, hsub⟩⟩ <;>
            rw [hres, hp, htf]
        · have htf : text_keyword_fallback content =
              { workflow := "general",
                confidence := JVal.num { mantissa := 7, exp10 := 1 },
                reason := JVal.str "텍스트 파싱", method := "fallback" } := by
            simp only [text_keyword_fallback]
            rw [if_neg hsub]
          refine ⟨Or.inl ?_, Or.inl ?_⟩ <;> rw [hres, hp, htf]
      · exact ⟨Or.inr (by rw [hres, hp]), Or.inl (by rw [hres, hp])⟩

/-- Witness for the amended C1 at a concrete timing-out call. -/
theorem c1_amended_fallback_paths_witness :
    (classify_workflow jsonLoads0 pyHash0 [] "아스피린 관련 논문 찾아줘" []
        LLMOutcome.timeout).result.method = "fallback" ∧
    (classify_workflow jsonLoads0 pyHash0 [] "아스피린 관련 논문 찾아줘" []
        LLMOutcome.timeout).result.workflow = "general" := by
  have h := c1_amended_fallback_paths jsonLoads0 pyHash0 []
    "아스피린 관련 논문 찾아줘" [] LLMOutcome.timeout rfl
    (fun content hc => nomatch hc)
  refine ⟨?_, ?_⟩
  · rcases h.1 with h1 | h1
    · exact h1
    · exact absurd h1 (by decide)
  · rcases h.2 with h2 | h2
    · exact h2
    · obtain ⟨content, hc, _⟩ := h2
      simp at hc

/-- Looking up the key just written into a dict finds the written value. -/
lemma dict_get_set_self {β : Type} (d : List (String × β)) (k : String)
    (v : β) : dict_get (dict_set d k v) k = some v := by
  induction d with
  | nil => simp [dict_get, dict_set]
  | cons p rest ih =>
      obtain ⟨k0, v0⟩ := p
      by_cases h : k0 = k
      · simp [dict_get, dict_set, h]
      · simp [dict_get, dict_set, h, ih]

/-- Claim C3 (refuting evaluation at a concrete input): a call whose model
invocation times out invokes the model but caches nothing, so a second
identical call invokes the model again — the claim that every call caches
its result before returning fails. -/
theorem c3_counterexample_fallback_result_not_cached :
    (classify_workflow jsonLoads0 pyHash0 [] "아스피린" []
        LLMOutcome.timeout).model_called = true ∧
    (classify_workflow jsonLoads0 pyHash0 [] "아스피린" []
        LLMOutcome.timeout).cache = [] ∧
    dict_get (classify_workflow jsonLoads0 pyHash0 [] "아스피린" []
        LLMOutcome.timeout).cache (cache_key pyHash0 "아스피린" []) = none ∧
    (classify_workflow jsonLoads0 pyHash0
        (classify_workflow jsonLoads0 pyHash0 [] "아스피린" []
          LLMOutcome.timeout).cache
        "아스피린" [] LLMOutcome.timeout).model_called = true := by
  refine ⟨by decide, by decide, by decide, by decide⟩

/-- Claim C3 as amended: a cache-miss call whose model invocation returns a
response caches the parsed result under the computed key before returning,
and any second call with identical query and tool catalog then returns the
identical result without invoking the model; timeout and invocation-error
fallbacks are returned without being cached. -/
theorem c3_amended_successful_calls_cached :
    ∀ (jsonLoads : String → Option JObj) (pyHash : String → Int)
      (cache : List (String × ClassificationResult)) (query : String)
      (tools : List Tool) (content : String),
      dict_get cache (cache_key pyHash query tools) = none →
      dict_get (classify_workflow jsonLoads pyHash cache query tools
          (LLMOutcome.ok content)).cache (cache_key pyHash query tools) =
        some (classify_workflow jsonLoads pyHash cache query tools
          (LLMOutcome.ok content)).result ∧
      (classify_workflow jsonLoads pyHash cache query tools
        (LLMOutcome.ok content)).model_called = true ∧
      (∀ llm2,
        (classify_workflow jsonLoads pyHash
            (classify_workflow jsonLoads pyHash cache query tools
              (LLMOutcome.ok content)).cache query tools llm2).result =
          (classify_workflow jsonLoads pyHash cache query tools
            (LLMOutcome.ok content)).result ∧
        (classify_workflow jsonLoads pyHash
            (classify_workflow jsonLoads pyHash cache query tools
              (LLMOutcome.ok content)).cache query tools llm2).model_called =
          false) ∧
      (classify_workflow jsonLoads pyHash cache query tools
        LLMOutcome.timeout).cache = cache ∧
      (∀ e, (classify_workflow jsonLoads pyHash cache query tools
        (LLMOutcome.raised e)).cache = cache) := by
  intro jsonLoads pyHash cache query tools content hmiss
  have h1 :
      classify_workflow jsonLoads pyHash cache query tools
          (LLMOutcome.ok content) =
        { result := parse_llm_response jsonLoads content,
          cache := dict_set cache (cache_key pyHash query tools)
            (parse_llm_response jsonLoads content),
          model_called := true } := by
    simp [classify_workflow, hmiss]
  refine ⟨?_, ?_, ?_, ?_, ?_⟩
  · rw [h1]
    exact dict_get_set_self cache (cache_key pyHash query tools)
      (parse_llm_response jsonLoads content)
  · rw [h1]
  · intro llm2
    rw [h1]
    constructor <;> simp [classify_workflow, dict_get_set_self]
  · simp [classify_workflow, hmiss]
  · intro e
    simp [classify_workflow, hmiss]

/-- Witness for the amended C3 at a concrete succeeding call, with the
second call taken at a concrete (again timing-out) outcome. -/
theorem c3_amended_successful_calls_cached_witness :
    dict_get (classify_workflow jsonLoads0 pyHash0 [] "감기 증상" []
        (LLMOutcome.ok "무관한 응답")).cache (cache_key pyHash0 "감기 증상" []) =
      some (classify_workflow jsonLoads0 pyHash0 [] "감기 증상" []
        (LLMOutcome.ok "무관한 응답")).result ∧
    (classify_workflow jsonLoads0 pyHash0 [] "감기 증상" []
      (LLMOutcome.ok "무관한 응답")).model_called = true ∧
    (classify_workflow jsonLoads0 pyHash0
        (classify_workflow jsonLoads0 pyHash0 [] "감기 증상" []
          (LLMOutcome.ok "무관한 응답")).cache "감기 증상" []
        LLMOutcome.timeout).result =
      (classify_workflow jsonLoads0 pyHash0 [] "감기 증상" []
        (LLMOutcome.ok "무관한 응답")).result ∧
    (classify_workflow jsonLoads0 pyHash0
        (classify_workflow jsonLoads0 pyHash0 [] "감기 증상" []
          (LLMOutcome.ok "무관한 응답")).cache "감기 증상" []
        LLMOutcome.timeout).model_called = false ∧
    (classify_workflow jsonLoads0 pyHash0 [] "감기 증상" []
      LLMOutcome.timeout).cache = [] ∧
    (classify_workflow jsonLoads0 pyHash0 [] "감기 증상" []
      (LLMOutcome.raised "api error")).cache = [] := by
  have h := c3_amended_successful_calls_cached jsonLoads0 pyHash0 [] "감기 증상"
    [] "무관한 응답" rfl
  exact ⟨h.1, h.2.1, (h.2.2.1 LLMOutcome.timeout).1,
    (h.2.2.1 LLMOutcome.timeout).2, h.2.2.2.1, h.2.2.2.2 "api error"⟩

/-- Writing a fresh key appends the binding at the end of the dict. -/
lemma dict_set_fresh {β : Type} (d : List (String × β)) (k : String) (v : β)
    (h : k ∉ dict_keys d) : dict_set d k v = d ++ [(k, v)] := by
  induction d with
  | nil => rfl
  | cons p rest ih =>
      obtain ⟨k0, v0⟩ := p
      have hk0 : k0 ≠ k := by
        intro hc
        exact h (by simp [dict_keys, hc])
      have hrest : k ∉ dict_keys rest := by
        intro hc
        exact h (by simp [dict_keys] at hc ⊢; exact Or.inr hc)
      simp [dict_set, hk0, ih hrest]

/-- Overwriting the lone binding of a fresh key at the end of the dict. -/
lemma dict_set_append_self {β : Type} (d : List (String × β)) (k : String)
    (u v : β) (h : k ∉ dict_keys d) :
    dict_set (d ++ [(k, u)]) k v = d ++ [(k, v)] := by
  induction d with
  | nil => simp [dict_set]
  | cons p rest ih =>
      obtain ⟨k0, v0⟩ := p
      have hk0 : k0 ≠ k := by
        intro hc
        exact h (by simp [dict_keys, hc])
      have hrest : k ∉ dict_keys rest := by
        intro hc
        exact h (by simp [dict_keys] at hc ⊢; exact Or.inr hc)
      simp [dict_set, hk0, ih hrest]

/-- One unfolding step of `apply_status_updates`. -/
lemma apply_status_updates_cons (store : List (String × StatusRecord))
    (k : String) (u : StatusRecord) (us : List StatusRecord) :
    apply_status_updates store k (u :: us) =
      apply_status_updates (dict_set store k u) k us := rfl

/-- Replaying updates over a dict that ends with the lone binding of `k`
keeps everything but that binding fixed and leaves the last update. -/
lemma apply_status_updates_fresh (k : String) :
    ∀ (us : List StatusRecord) (u : StatusRecord)
      (store : List (String × StatusRecord)), k ∉ dict_keys store →
      apply_status_updates (store ++ [(k, u)]) k us =
        store ++ [(k, us.getLastD u)] := by
  intro us
  induction us with
  | nil => intro u store _; rfl
  | cons v vs ih =>
      intro u store h
      rw [apply_status_updates_cons, dict_set_append_self store k u v h,
        ih v store h, List.getLastD_cons]

/-- Replaying a nonempty update sequence for a fresh key appends its last
update. -/
lemma apply_status_updates_fresh_start (us : List StatusRecord)
    (u : StatusRecord) (store : List (String × StatusRecord)) (k : String)
    (h : k ∉ dict_keys store) :
    apply_status_updates store k (u :: us) = store ++ [(k, us.getLastD u)] := by
  rw [apply_status_updates_cons, dict_set_fresh store k u h,
    apply_status_updates_fresh k us u store h]

/-- A fresh server's whole `connect_mcp_server` status sequence leaves
exactly its final status in the store. -/
lemma apply_connect_updates (store : List (String × StatusRecord))
    (k : String) (oc : ServerOutcome) (h : k ∉ dict_keys store) :
    apply_status_updates store k (connect_mcp_server oc).1 =
      store ++ [(k, final_status oc)] := by
  cases oc <;> exact apply_status_updates_fresh_start _ _ _ _ h

/-- One step of the connect-all fold over a fresh server name. -/
lemma connect_all_step_eq (tools0 : List Tool)
    (store0 : List (String × StatusRecord)) (n : String) (oc : ServerOutcome)
    (h : n ∉ dict_keys store0) :
    connect_all_step (tools0, store0) (n, oc) =
      (tools0 ++ ok_tools [(n, oc)], store0 ++ [(n, final_status oc)]) := by
  cases oc with
  | ok ts =>
      show (tools0 ++ ts,
          apply_status_updates store0 n
            (connect_mcp_server (ServerOutcome.ok ts)).1) = _
      rw [apply_connect_updates store0 n (ServerOutcome.ok ts) h]
      simp [ok_tools]
  | initTimeout =>
      show (tools0,
          apply_status_updates store0 n
            (connect_mcp_server ServerOutcome.initTimeout).1) = _
      rw [apply_connect_updates store0 n ServerOutcome.initTimeout h]
      simp [ok_tools]
  | initRaised e =>
      show (tools0,
          apply_status_updates store0 n
            (connect_mcp_server (ServerOutcome.initRaised e)).1) = _
      rw [apply_connect_updates store0 n (ServerOutcome.initRaised e) h]
      simp [ok_tools]
  | connectRaised e =>
      show (tools0,
          apply_status_updates store0 n
            (connect_mcp_server (ServerOutcome.connectRaised e)).1) = _
      rw [apply_connect_updates store0 n (ServerOutcome.connectRaised e) h]
      simp [ok_tools]

/-- The connect-all fold over pairwise-distinct fresh server names:
aggregated catalog and final status store, in configuration order. -/
lemma connect_all_aux (cfg : List (String × ServerOutcome)) :
    ∀ (tools0 : List Tool) (store0 : List (String × StatusRecord)),
      (∀ n, n ∈ cfg.map Prod.fst → n ∉ dict_keys store0) →
      (cfg.map Prod.fst).Nodup →
      cfg.foldl connect_all_step (tools0, store0) =
        (tools0 ++ ok_tools cfg,
         store0 ++ cfg.map fun sc => (sc.1, final_status sc.2)) := by
  induction cfg with
  | nil => intro tools0 store0 _ _; simp [ok_tools]
  | cons sc rest ih =>
      obtain ⟨n, oc⟩ := sc
      intro tools0 store0 hdisj hnodup
      have hnodup' : (n :: rest.map Prod.fst).Nodup := by simpa using hnodup
      have hnmem : n ∉ rest.map Prod.fst := (List.nodup_cons.mp hnodup').1
      have hrestnodup : (rest.map Prod.fst).Nodup := (List.nodup_cons.mp hnodup').2
      have hn : n ∉ dict_keys store0 := hdisj n (by simp)
      have hd : ∀ m, m ∈ rest.map Prod.fst →
          m ∉ dict_keys (store0 ++ [(n, final_status oc)]) := by
        intro m hm
        have hm0 : m ∉ dict_keys store0 :=
          hdisj m (by simp [List.mem_cons_of_mem, hm])
        have hmn : m ≠ n := fun hc => hnmem (hc ▸ hm)
        simp [dict_keys] at hm0 ⊢
        exact ⟨hm0, hmn⟩
      rw [List.foldl_cons, connect_all_step_eq tools0 store0 n oc hn,
        ih (tools0 ++ ok_tools [(n, oc)]) (store0 ++ [(n, final_status oc)])
          hd hrestnodup]
      cases oc <;> simp [ok_tools]

/-- Per-outcome count of failed records over the final status store. -/
lemma count_failed_map (cfg : List (String × ServerOutcome)) :
    count_failed (cfg.map fun sc => (sc.1, final_status sc.2)) =
      (cfg.filter fun sc => is_fail_outcome sc.2).length := by
  induction cfg with
  | nil => rfl
  | cons sc rest ih =>
      obtain ⟨n, oc⟩ := sc
      cases oc <;>
        simp [count_failed, final_status, is_fail_outcome,
          List.filter_cons] <;>
        simpa [count_failed] using ih

/-- Claim C7: over any configuration with pairwise-distinct server names,
the aggregated catalog is exactly the concatenation of the succeeding
servers' tools in configuration order, every server's status record ends at
`final_status` (Failed with the causal error message for every server whose
handshake or session initialization fails, Connected otherwise), and the
number of Failed records equals the number of failing servers — in
particular, 3 servers with exactly 1 failing yield the 2 succeeding
servers' tools and exactly 1 Failed record. -/
theorem c7_partial_connect_tolerance :
    ∀ (cfg : List (String × ServerOutcome)),
      (cfg.map Prod.fst).Nodup →
      (connect_all_mcp_servers cfg).1 = ok_tools cfg ∧
      (connect_all_mcp_servers cfg).2 =
        cfg.map (fun sc => (sc.1, final_status sc.2)) ∧
      count_failed (connect_all_mcp_servers cfg).2 =
        (cfg.filter fun sc => is_fail_outcome sc.2).length := by
  intro cfg hnodup
  have h := connect_all_aux cfg [] [] (by simp [dict_keys]) hnodup
  have h1 : connect_all_mcp_servers cfg =
      ([] ++ ok_tools cfg, [] ++ cfg.map fun sc => (sc.1, final_status sc.2)) := h
  rw [h1]
  simp [count_failed_map cfg]

/-- Witness for C7: three configured servers of which exactly the second
fails handshake — the catalog holds exactly the two succeeding servers'
tools and exactly one status record is Failed. -/
theorem c7_partial_connect_tolerance_witness :
    (connect_all_mcp_servers
        [("pubmed", ServerOutcome.ok [(⟨"search_pubmed", some "논문 검색", []⟩ : Tool)]),
         ("weather", ServerOutcome.initTimeout),
         ("news", ServerOutcome.ok [(⟨"search_news", none, []⟩ : Tool)])]).1 =
      ok_tools
        [("pubmed", ServerOutcome.ok [(⟨"search_pubmed", some "논문 검색", []⟩ : Tool)]),
         ("weather", ServerOutcome.initTimeout),
         ("news", ServerOutcome.ok [(⟨"search_news", none, []⟩ : Tool)])] ∧
    ok_tools
        [("pubmed", ServerOutcome.ok [(⟨"search_pubmed", some "논문 검색", []⟩ : Tool)]),
         ("weather", ServerOutcome.initTimeout),
         ("news", ServerOutcome.ok [(⟨"search_news", none, []⟩ : Tool)])] =
      [(⟨"search_pubmed", some "논문 검색", []⟩ : Tool),
       (⟨"search_news", none, []⟩ : Tool)] ∧
    count_failed (connect_all_mcp_servers
        [("pubmed", ServerOutcome.ok [(⟨"search_pubmed", some "논문 검색", []⟩ : Tool)]),
         ("weather", ServerOutcome.initTimeout),
         ("news", ServerOutcome.ok [(⟨"search_news", none, []⟩ : Tool)])]).2 = 1 := by
  have h := c7_partial_connect_tolerance
      [("pubmed", ServerOutcome.ok [(⟨"search_pubmed", some "논문 검색", []⟩ : Tool)]),
       ("weather", ServerOutcome.initTimeout),
       ("news", ServerOutcome.ok [(⟨"search_news", none, []⟩ : Tool)])] (by decide)
  refine ⟨h.1, by decide, ?_⟩
  rw [h.2.2]
  decide

/-- Claim C8 (refuting evaluation at a concrete input): when the first
connect attempt returns an empty catalog without raising, the wrapper
returns that empty catalog immediately — one attempt, no sleep — even
though a second attempt would have yielded a tool, contradicting the
claimed retry-on-empty-catalog behaviour. -/
theorem c8_counterexample_empty_catalog_not_retried :
    get_tools_with_retry
        [PyResult.ok [], PyResult.ok [(⟨"search_pubmed", none, []⟩ : Tool)]] =
      { result := PyResult.ok [], attempts := 1, sleeps := 0 } := by
  decide

/-- Claim C8 as amended: the wrapper retries the full multi-server connect
sequence (never an individual server) only when the sequence raises an
exception, sleeping one time-unit between consecutive attempts, up to
`max_retries` attempts (the length of the outcome list, default 2); the
first non-raising attempt's catalog is returned at once even when it is
empty, and if every attempt raises, the last exception is re-raised. -/
theorem c8_amended_retries_only_on_exception :
    ∀ (outcomes : List (PyResult (List Tool))),
      outcomes ≠ [] →
      (∀ ts rest,
        outcomes.drop (outcomes.takeWhile attempt_raised).length =
            PyResult.ok ts :: rest →
        get_tools_with_retry outcomes =
          { result := PyResult.ok ts,
            attempts := (outcomes.takeWhile attempt_raised).length + 1,
            sleeps := (outcomes.takeWhile attempt_raised).length }) ∧
      (outcomes.drop (outcomes.takeWhile attempt_raised).length = [] →
        ∃ e, outcomes.getLast? = some (PyResult.raised e) ∧
          get_tools_with_retry outcomes =
            { result := PyResult.raised e, attempts := outcomes.length,
              sleeps := outcomes.length - 1 }) := by
  intro outcomes
  induction outcomes with
  | nil => intro hne; exact absurd rfl hne
  | cons o rest ih =>
      intro _
      cases o with
      | ok ts =>
          constructor
          · intro ts2 rest2 heq
            simp [attempt_raised] at heq
            obtain ⟨h1, h2⟩ := heq
            subst h1
            rfl
          · intro habs
            simp [attempt_raised] at habs
      | raised e =>
          cases rest with
          | nil =>
              constructor
              · intro ts2 rest2 heq
                simp [attempt_raised] at heq
              · intro _
                exact ⟨e, rfl, rfl⟩
          | cons o2 rest2 =>
              have ihne : (o2 :: rest2) ≠ [] := by simp
              have hstep :
                  get_tools_with_retry (PyResult.raised e :: o2 :: rest2) =
                    { result := (get_tools_with_retry (o2 :: rest2)).result,
                      attempts :=
                        (get_tools_with_retry (o2 :: rest2)).attempts + 1,
                      sleeps :=
                        (get_tools_with_retry (o2 :: rest2)).sleeps + 1 } := rfl
              have htw :
                  (PyResult.raised e :: o2 :: rest2).takeWhile attempt_raised =
                    PyResult.raised e ::
                      (o2 :: rest2).takeWhile attempt_raised := by
                simp [attempt_raised]
              constructor
              · intro ts3 rest3 heq
                have heq' : (o2 :: rest2).drop
                    ((o2 :: rest2).takeWhile attempt_raised).length =
                      PyResult.ok ts3 :: rest3 := by
                  rw [htw] at heq
                  simpa using heq
                have hr := (ih ihne).1 ts3 rest3 heq'
                rw [hstep, hr, htw]
                simp
              · intro habs
                have habs' : (o2 :: rest2).drop
                    ((o2 :: rest2).takeWhile attempt_raised).length = [] := by
                  rw [htw] at habs
                  simpa using habs
                obtain ⟨e2, hlast, hres⟩ := (ih ihne).2 habs'
                refine ⟨e2, ?_, ?_⟩
                · rw [List.getLast?_cons_cons]
                  exact hlast
                · rw [hstep, hres]
                  simp [List.length_cons]

/-- Witness for the amended C8: a raising first attempt is retried after
one sleep and the second attempt's catalog is returned. -/
theorem c8_amended_retries_only_on_exception_witness :
    get_tools_with_retry
        [PyResult.raised "연결 실패",
         PyResult.ok [(⟨"search_pubmed", none, []⟩ : Tool)]] =
      { result := PyResult.ok [(⟨"search_pubmed", none, []⟩ : Tool)],
        attempts := 2, sleeps := 1 } :=
  (c8_amended_retries_only_on_exception
      [PyResult.raised "연결 실패",
       PyResult.ok [(⟨"search_pubmed", none, []⟩ : Tool)]]
      (by decide)).1 [(⟨"search_pubmed", none, []⟩ : Tool)] [] rfl

end MedSearch
